import Mathlib

/-!
Shallow embedding of the phoenix-sdk client core (src/src/client.ts and the
errors module) together with proofs settling the frozen claims about the
retry/backoff/timeout controller, the error taxonomy and the client
configuration defaults.

Modelling conventions:
* JavaScript numbers used for times, waits and jitter are modelled as `ℚ`
  (`Math.random() * 1000` is a real-valued jitter; all other quantities in
  play are integer-valued milliseconds).
* `undefined` configuration fields are `Option.none`; JavaScript falsiness
  of `0` and of the empty string is modelled explicitly at each use site,
  mirroring `||` versus `??` in the source.
* The outcome of one underlying `apiCall()` invocation (a resolved
  `AxiosResponse` or a thrown error) is an input supplied by an environment
  `Env`, as are the `Date.now()` readings and the random jitter draws; the
  `while (true)` loop of `retryRequest` is run with explicit fuel.
-/

namespace Phoenix

/-- JavaScript whitespace (the common ASCII characters recognised both by
`parseInt`'s leading-whitespace skip and by the regex class `\s`). -/
def isJsWs (c : Char) : Bool :=
  c = ' ' || c = '\t' || c = '\n' || c = '\r' || c = '\x0b' || c = '\x0c'

/-- JavaScript `String.prototype.startsWith`, over the characters. -/
def strStartsWith (s p : String) : Bool :=
  p.toList.isPrefixOf s.toList

/-- Does `pat` occur as a contiguous substring of `hay`? -/
def listContains (hay pat : List Char) : Bool :=
  match hay with
  | [] => pat.isEmpty
  | c :: t => pat.isPrefixOf (c :: t) || listContains t pat

/-- JavaScript `String.prototype.includes`. -/
def strIncludes (s pat : String) : Bool :=
  listContains s.toList pat.toList

/-- Value of a decimal digit run (most significant first). -/
def digitsToNat (l : List Char) : Nat :=
  l.foldl (fun a c => a * 10 + (c.toNat - 48)) 0

/-- JavaScript `parseInt(s, 10)`: skip leading whitespace, read an optional
sign, then a maximal run of decimal digits; `NaN` (here `none`) when the
digit run is empty. -/
def jsParseInt (s : String) : Option Int :=
  let l := s.toList.dropWhile isJsWs
  let sr : Int × List Char :=
    match l with
    | '-' :: t => (-1, t)
    | '+' :: t => (1, t)
    | t => (1, t)
  let ds := sr.2.takeWhile Char.isDigit
  if ds.isEmpty then none else some (sr.1 * (digitsToNat ds : Int))

/-- `parseInt(header, 10)` where a missing header (`undefined`) stringifies
to `"undefined"` and hence parses to `NaN`. -/
def jsParseIntOpt (h : Option String) : Option Int :=
  match h with
  | none => none
  | some s => jsParseInt s

/-- One attempt of the regex `/ID\s+(\S+)/` anchored at the head of the
list: the literal characters `I`, `D`, then at least one whitespace
character, then a captured non-empty maximal run of non-whitespace. -/
def idCaptureAt (l : List Char) : Option (List Char) :=
  match l with
  | 'I' :: 'D' :: rest =>
    let ws := rest.takeWhile isJsWs
    if ws.isEmpty then none
    else
      let cap := (rest.dropWhile isJsWs).takeWhile (fun c => !isJsWs c)
      if cap.isEmpty then none else some cap
  | _ => none

/-- `String.prototype.match(/ID\s+(\S+)/)`: scan left to right for the first
position where the pattern matches, returning the capture group. -/
def scanIdCapture (l : List Char) : Option (List Char) :=
  match l with
  | [] => none
  | _ :: t =>
    match idCaptureAt l with
    | some cap => some cap
    | none => scanIdCapture t

/-- The project-id extraction in `handleAxiosError`'s 409 branch:
`errorMessage.match(/ID\s+(\S+)/)?.[1] || 'unknown'`. -/
def extractProjectId (msg : String) : String :=
  match scanIdCapture msg.toList with
  | some cap => String.mk cap
  | none => "unknown"

/-- The portion of a thrown error visible to the SDK: the `axios` flag, the
response status (`none` when no response was received), the response's
`retry-after` header, the `Error.message` string, and the Phoenix
`ResponseEntity.errors` texts carried in the response body. -/
structure ErrInput where
  isAxiosError : Bool
  status : Option Nat
  retryAfter : Option String
  message : String
  errors : Option (List String)
deriving DecidableEq

/-- The observable fields of a `PhoenixError` (src errors module): `message`,
`code`, `statusCode`, `details` (the Phoenix error list when supplied),
the subclass `name`, and the `retryAfter` field carried only by
`RateLimitError` and `ServiceUnavailableError`. -/
structure PhoenixError where
  message : String
  code : String
  statusCode : Option Nat
  details : Option (List String)
  name : String
  retryAfter : Option Int
deriving DecidableEq

/-- `new PhoenixError(message, code, statusCode, details)`. -/
def mkPhoenixError (message code : String) (statusCode : Option Nat)
    (details : Option (List String)) : PhoenixError :=
  { message := message, code := code, statusCode := statusCode,
    details := details, name := "PhoenixError", retryAfter := none }

/-- `new ProjectExistsError(projectId)`. -/
def ProjectExistsError (projectId : String) : PhoenixError :=
  { message := "Project already exists with ID: " ++ projectId,
    code := "PROJECT_EXISTS", statusCode := some 409, details := none,
    name := "ProjectExistsError", retryAfter := none }

/-- `new ResourceNotFoundError(resource, id)`. -/
def ResourceNotFoundError (resource id : String) : PhoenixError :=
  { message := resource ++ " not found: " ++ id,
    code := "RESOURCE_NOT_FOUND", statusCode := some 404, details := none,
    name := "ResourceNotFoundError", retryAfter := none }

/-- `new ValidationError(message, details)`. -/
def ValidationError (message : String) (details : Option (List String)) :
    PhoenixError :=
  { message := message, code := "VALIDATION_ERROR", statusCode := some 400,
    details := details, name := "ValidationError", retryAfter := none }

/-- `new ServiceUnavailableError(retryAfter)`; the constructor message picks
the hint text only when `retryAfter` is truthy (not `undefined`/`NaN`/`0`). -/
def ServiceUnavailableError (retryAfter : Option Int) : PhoenixError :=
  { message :=
      match retryAfter with
      | some n =>
        if n ≠ 0 then
          ("Service unavailable. Retry after " ++ toString n ++ " seconds.")
        else ("Service unavailable")
      | none => "Service unavailable",
    code := "SERVICE_UNAVAILABLE", statusCode := some 503, details := none,
    name := "ServiceUnavailableError", retryAfter := retryAfter }

/-- `new TimeoutError(timeoutMinutes)`. -/
def TimeoutError (timeoutMinutes : Nat) : PhoenixError :=
  { message :=
      "Request timeout exceeded: " ++ toString timeoutMinutes ++ " minutes",
    code := "TIMEOUT", statusCode := some 408, details := none,
    name := "TimeoutError", retryAfter := none }

/-- `new AuthenticationError(message)`. -/
def AuthenticationError (message : String) : PhoenixError :=
  { message := message, code := "AUTHENTICATION_ERROR",
    statusCode := some 401, details := none,
    name := "AuthenticationError", retryAfter := none }

/-- `new AuthorizationError(message)`. -/
def AuthorizationError (message : String) : PhoenixError :=
  { message := message, code := "AUTHORIZATION_ERROR",
    statusCode := some 403, details := none,
    name := "AuthorizationError", retryAfter := none }

/-- `new RateLimitError(retryAfter)`. -/
def RateLimitError (retryAfter : Option Int) : PhoenixError :=
  { message :=
      match retryAfter with
      | some n =>
        if n ≠ 0 then
          ("Rate limit exceeded. Retry after " ++ toString n ++ " seconds.")
        else ("Rate limit exceeded")
      | none => "Rate limit exceeded",
    code := "RATE_LIMIT_ERROR", statusCode := some 429, details := none,
    name := "RateLimitError", retryAfter := retryAfter }

/-- `retryAfter ? parseInt(retryAfter, 10) : undefined` in the 429 and 503
branches of `handleAxiosError`; a `NaN` parse result is conflated with
`undefined` (both are falsy and carry no usable hint). -/
def parseRetryHint (h : Option String) : Option Int :=
  match h with
  | none => none
  | some s => if s = "" then none else jsParseInt s

/-- `data?.errors?.[0]?.text || error.message`. -/
def extractErrorMessage (e : ErrInput) : String :=
  match e.errors with
  | some (t :: _) => if t = "" then e.message else t
  | _ => e.message

/-- The `switch (status)` of `handleAxiosError` (errors module), converting a
thrown axios error into a `PhoenixError`. -/
def handleAxiosError (e : ErrInput) : PhoenixError :=
  let errorMessage := extractErrorMessage e
  match e.status with
  | none => mkPhoenixError errorMessage ("CONNECTION_ERROR") none e.errors
  | some s =>
    if s = 400 then ValidationError errorMessage e.errors
    else if s = 401 then AuthenticationError errorMessage
    else if s = 403 then AuthorizationError errorMessage
    else if s = 404 then ResourceNotFoundError ("Resource") errorMessage
    else if s = 409 then
      if strIncludes errorMessage ("Project already exists") then
        ProjectExistsError (extractProjectId errorMessage)
      else mkPhoenixError errorMessage ("CONFLICT") (some 409) e.errors
    else if s = 429 then RateLimitError (parseRetryHint e.retryAfter)
    else if s = 503 then ServiceUnavailableError (parseRetryHint e.retryAfter)
    else
      mkPhoenixError errorMessage
        (if s = 0 then ("HTTP_UNKNOWN") else ("HTTP_" ++ toString s))
        (some s) e.errors

/-- `PhoenixClientConfig`: the constructor argument of `PhoenixClient`
(`baseURL`, `port`, `timeout`); `none` models an omitted field. -/
structure PhoenixClientConfig where
  baseURL : Option String
  port : Option Nat
  timeout : Option Nat
deriving DecidableEq

/-- `config.port || 8022` (`0` is falsy). -/
def effPort (c : PhoenixClientConfig) : Nat :=
  match c.port with
  | none => 8022
  | some 0 => 8022
  | some p => p

/-- `config.baseURL || 'http://localhost'` (the empty string is falsy). -/
def rawBaseURL (c : PhoenixClientConfig) : String :=
  match c.baseURL with
  | none => "http://localhost"
  | some s => if s = "" then ("http://localhost") else s

/-- `if (url && !url.startsWith('http://') && !url.startsWith('https://'))
url = 'http://' + url`. -/
def normalizeURL (url : String) : String :=
  if url ≠ "" && !strStartsWith url ("http://") && !strStartsWith url ("https://")
  then ("http://" ++ url) else url

/-- The `baseURL` handed to `axios.create`:
`` `${url}:${port}/phoenix` `` after normalization. -/
def composedBaseURL (c : PhoenixClientConfig) : String :=
  normalizeURL (rawBaseURL c) ++ ":" ++ toString (effPort c) ++ "/phoenix"

/-- `timeout: config.timeout || 30000` (`0` is falsy). -/
def effTimeout (c : PhoenixClientConfig) : Nat :=
  match c.timeout with
  | none => 30000
  | some 0 => 30000
  | some t => t

/-- `RetryConfig`: `maxRetries` and `timeoutMinutes`, `none` for omitted. -/
structure RetryConfig where
  maxRetries : Option Nat
  timeoutMinutes : Option Nat
deriving DecidableEq

/-- `config.timeoutMinutes || 10` (`0` is falsy). -/
def effTimeoutMinutes (c : RetryConfig) : Nat :=
  match c.timeoutMinutes with
  | none => 10
  | some 0 => 10
  | some n => n

/-- `timeoutMs = (config.timeoutMinutes || 10) * 60 * 1000`. -/
def timeoutMs (c : RetryConfig) : ℚ :=
  (effTimeoutMinutes c : ℚ) * 60 * 1000

/-- `retries >= maxRetries` where `maxRetries = config.maxRetries ?? Infinity`
(`none` is `Infinity`, which no finite counter ever reaches). -/
def retriesExceeded (retries : Nat) (maxRetries : Option Nat) : Bool :=
  match maxRetries with
  | some n => decide (n ≤ retries)
  | none => false

/-- The exponential-backoff wait
`Math.min(30000, 2000 * 2 ** retries + Math.random() * 1000)`, with the
random draw `jitter` supplied by the environment. -/
def expWaitMs (retries : Nat) (jitter : ℚ) : ℚ :=
  min 30000 (2000 * 2 ^ retries + jitter)

/-- The wait computed in the resolved-503 branch:
`isNaN(retrySeconds) ? Math.min(...) : retrySeconds * 1000` where
`retrySeconds = parseInt(response.headers['retry-after'], 10)`. -/
def respWaitMs (header : Option String) (retries : Nat) (jitter : ℚ) : ℚ :=
  match jsParseIntOpt header with
  | none => expWaitMs retries jitter
  | some n => (n : ℚ) * 1000

/-- An `AxiosResponse` as far as the retry controller inspects it: the
status, the `retry-after` header, and an opaque body used to state that a
response is returned unchanged. -/
structure HttpResponse where
  status : Nat
  retryAfter : Option String
  body : String
deriving DecidableEq

/-- The outcome of one `apiCall()` invocation. -/
inductive Outcome where
  | resolved (r : HttpResponse)
  | thrown (e : ErrInput)
deriving DecidableEq

/-- The environment of one `retryRequest` run, indexed by the value of the
`retries` counter at the loop iteration in question: the attempt outcomes,
the `Math.random() * 1000` draws, and the `Date.now() - start` reading taken
at that iteration's elapsed-time check. -/
structure Env where
  outcomes : Nat → Outcome
  jitter : Nat → ℚ
  elapsedAt : Nat → ℚ

/-- One committed `await this.wait(waitMs)`: which branch committed it
(response-value or thrown-error), the elapsed reading at the pre-sleep
check, the wait length, and the `retries` counter when it was computed. -/
structure SleepEvent where
  viaErrorBranch : Bool
  elapsed : ℚ
  waitMs : ℚ
  attempt : Nat
deriving DecidableEq

/-- How one `retryRequest` (or plain `request`) invocation ends. -/
inductive RunResult where
  | ok (r : HttpResponse)
  | errTimeout (minutes : Nat)
  | errPhoenix (e : PhoenixError)
  | errRaw (e : ErrInput)
  | fuelOut
deriving DecidableEq

/-- The `while (true)` loop of `PhoenixClient.retryRequest`, with explicit
fuel; returns the final outcome together with the list of committed sleeps
in order. Each non-terminating iteration increments `retries` exactly once,
so the iteration is indexed into `Env` by the current `retries` value. -/
def retryRun (env : Env) (cfg : RetryConfig) :
    Nat → Nat → RunResult × List SleepEvent
  | 0, _ => (.fuelOut, [])
  | fuel + 1, retries =>
    match env.outcomes retries with
    | .resolved r =>
      if r.status ≠ 503 then (.ok r, [])
      else if retriesExceeded retries cfg.maxRetries then (.ok r, [])
      else
        let w := respWaitMs r.retryAfter retries (env.jitter retries)
        let el := env.elapsedAt retries
        if el + w ≥ timeoutMs cfg then
          (.errTimeout (effTimeoutMinutes cfg), [])
        else
          let rest := retryRun env cfg fuel (retries + 1)
          (rest.1, ⟨false, el, w, retries⟩ :: rest.2)
    | .thrown e =>
      if e.status = some 503 then
        if retriesExceeded retries cfg.maxRetries then (.errRaw e, [])
        else
          let el := env.elapsedAt retries
          if el ≥ timeoutMs cfg then
            (.errTimeout (effTimeoutMinutes cfg), [])
          else
            let w := expWaitMs retries (env.jitter retries)
            let rest := retryRun env cfg fuel (retries + 1)
            (rest.1, ⟨true, el, w, retries⟩ :: rest.2)
      else if e.isAxiosError then (.errPhoenix (handleAxiosError e), [])
      else (.errRaw e, [])

/-- `PhoenixClient.request` without a retry config: one `apiCall()`, with the
catch block converting a thrown axios error via `handleAxiosError` and
rethrowing anything else unchanged. -/
def singleRequest (env : Env) : RunResult :=
  match env.outcomes 0 with
  | .resolved r => .ok r
  | .thrown e =>
    if e.isAxiosError then .errPhoenix (handleAxiosError e) else .errRaw e

/-- `PhoenixClient.request`: delegate to `retryRequest` when a retry config
is supplied (the surrounding catch block then converts a propagated raw
axios error via `handleAxiosError`), else perform a single attempt. -/
def request (env : Env) (cfg : Option RetryConfig) (fuel : Nat) :
    RunResult × List SleepEvent :=
  match cfg with
  | none => (singleRequest env, [])
  | some c =>
    let res := retryRun env c fuel 0
    (match res.1 with
     | .errRaw e =>
       if e.isAxiosError then .errPhoenix (handleAxiosError e) else .errRaw e
     | other => other,
     res.2)

/-! Concrete fixtures used by counterexamples and witnesses. -/

/-- A plain 200 response. -/
def respOk : HttpResponse := ⟨200, none, "ok"⟩

/-- A 503 response with no `retry-after` header. -/
def resp503 : HttpResponse := ⟨503, none, "busy"⟩

/-- A 503 response whose `retry-after` header is the string `"0"`. -/
def resp503zero : HttpResponse := ⟨503, some ("0"), "busy"⟩

/-- A thrown axios error carrying a 503 response. -/
def errC1 : ErrInput := ⟨true, some 503, none, "Service Unavailable", none⟩

/-- A thrown axios error carrying a 400 response. -/
def err400 : ErrInput := ⟨true, some 400, none, "Bad Request", none⟩

/-- A thrown axios error with no response at all (network failure). -/
def errConn : ErrInput := ⟨true, none, none, "Network Error", none⟩

/-- Environment for the C1 counterexample: the first attempt throws a 503,
the second resolves with 200; every elapsed reading is 59999 ms. -/
def envC1 : Env :=
  { outcomes := fun k => if k = 0 then .thrown errC1 else .resolved respOk,
    jitter := fun _ => 0,
    elapsedAt := fun _ => 59999 }

/-- Retry config with a 1-minute total budget and unlimited retries. -/
def cfgC1 : RetryConfig := ⟨none, some 1⟩

/-- Environment whose first attempt resolves with a `retry-after: 0` 503 and
whose second attempt resolves with 200; elapsed readings are 0. -/
def envZeroHdr : Env :=
  { outcomes := fun k => if k = 0 then .resolved resp503zero
                         else .resolved respOk,
    jitter := fun _ => 0,
    elapsedAt := fun _ => 0 }

/-- Environment in which every attempt resolves with a plain 503 and no time
passes (all elapsed readings 0, all jitter 0). -/
def env503 : Env :=
  { outcomes := fun _ => .resolved resp503,
    jitter := fun _ => 0,
    elapsedAt := fun _ => 0 }

/-- Environment in which every attempt throws a 503 axios error and every
elapsed reading is 600000 ms (the full default budget). -/
def envBudgetSpent : Env :=
  { outcomes := fun _ => .thrown errC1,
    jitter := fun _ => 0,
    elapsedAt := fun _ => 600000 }

/-- Environment whose first attempt throws a 400 axios error. -/
def env400 : Env :=
  { outcomes := fun _ => .thrown err400,
    jitter := fun _ => 0,
    elapsedAt := fun _ => 0 }

/-- Environment whose every attempt throws a connection-level axios error
(no response received). -/
def envConn : Env :=
  { outcomes := fun _ => .thrown errConn,
    jitter := fun _ => 0,
    elapsedAt := fun _ => 0 }

/-- The failing input of claim C8: a 409 whose server message matches the
format produced by the SDK's own `ProjectExistsError` constructor. -/
def errProj409 : ErrInput :=
  ⟨true, some 409, none, "Project already exists with ID: proj-123", none⟩

/-- Retry config with every field omitted. -/
def cfgDefault : RetryConfig := ⟨none, none⟩

/-- Retry config allowing at most 2 retries. -/
def cfgN2 : RetryConfig := ⟨some 2, none⟩

/-- Retry config allowing 0 retries. -/
def cfgN0 : RetryConfig := ⟨some 0, none⟩

/-- Retry config with `timeoutMinutes: 0` (falsy, so the default applies). -/
def cfgTm0 : RetryConfig := ⟨none, some 0⟩

/-! Branch equations for one iteration of the retry loop. -/

theorem retryRun_resolved_ok (env : Env) (cfg : RetryConfig)
    (fuel retries : Nat) (r : HttpResponse)
    (h : env.outcomes retries = .resolved r) (hs : r.status ≠ 503) :
    retryRun env cfg (fuel + 1) retries = (.ok r, []) := by
  simp only [retryRun, h, if_pos hs]

theorem retryRun_resolved_exhausted (env : Env) (cfg : RetryConfig)
    (fuel retries : Nat) (r : HttpResponse)
    (h : env.outcomes retries = .resolved r) (hs : r.status = 503)
    (he : retriesExceeded retries cfg.maxRetries = true) :
    retryRun env cfg (fuel + 1) retries = (.ok r, []) := by
  simp [retryRun, h, hs, he]

theorem retryRun_resolved_timeout (env : Env) (cfg : RetryConfig)
    (fuel retries : Nat) (r : HttpResponse)
    (h : env.outcomes retries = .resolved r) (hs : r.status = 503)
    (he : retriesExceeded retries cfg.maxRetries = false)
    (ht : env.elapsedAt retries +
        respWaitMs r.retryAfter retries (env.jitter retries) ≥ timeoutMs cfg) :
    retryRun env cfg (fuel + 1) retries =
      (.errTimeout (effTimeoutMinutes cfg), []) := by
  simp [retryRun, h, hs, he, if_pos ht]

theorem retryRun_resolved_sleep (env : Env) (cfg : RetryConfig)
    (fuel retries : Nat) (r : HttpResponse)
    (h : env.outcomes retries = .resolved r) (hs : r.status = 503)
    (he : retriesExceeded retries cfg.maxRetries = false)
    (ht : ¬ env.elapsedAt retries +
        respWaitMs r.retryAfter retries (env.jitter retries) ≥ timeoutMs cfg) :
    retryRun env cfg (fuel + 1) retries =
      ((retryRun env cfg fuel (retries + 1)).1,
       ⟨false, env.elapsedAt retries,
        respWaitMs r.retryAfter retries (env.jitter retries), retries⟩ ::
       (retryRun env cfg fuel (retries + 1)).2) := by
  simp [retryRun, h, hs, he, if_neg ht]

theorem retryRun_thrown503_exhausted (env : Env) (cfg : RetryConfig)
    (fuel retries : Nat) (e : ErrInput)
    (h : env.outcomes retries = .thrown e) (hs : e.status = some 503)
    (he : retriesExceeded retries cfg.maxRetries = true) :
    retryRun env cfg (fuel + 1) retries = (.errRaw e, []) := by
  simp [retryRun, h, hs, he]

theorem retryRun_thrown503_timeout (env : Env) (cfg : RetryConfig)
    (fuel retries : Nat) (e : ErrInput)
    (h : env.outcomes retries = .thrown e) (hs : e.status = some 503)
    (he : retriesExceeded retries cfg.maxRetries = false)
    (ht : env.elapsedAt retries ≥ timeoutMs cfg) :
    retryRun env cfg (fuel + 1) retries =
      (.errTimeout (effTimeoutMinutes cfg), []) := by
  simp [retryRun, h, hs, he, if_pos ht]

theorem retryRun_thrown503_sleep (env : Env) (cfg : RetryConfig)
    (fuel retries : Nat) (e : ErrInput)
    (h : env.outcomes retries = .thrown e) (hs : e.status = some 503)
    (he : retriesExceeded retries cfg.maxRetries = false)
    (ht : ¬ env.elapsedAt retries ≥ timeoutMs cfg) :
    retryRun env cfg (fuel + 1) retries =
      ((retryRun env cfg fuel (retries + 1)).1,
       ⟨true, env.elapsedAt retries,
        expWaitMs retries (env.jitter retries), retries⟩ ::
       (retryRun env cfg fuel (retries + 1)).2) := by
  simp [retryRun, h, hs, he, if_neg ht]

theorem retryRun_thrown_other_axios (env : Env) (cfg : RetryConfig)
    (fuel retries : Nat) (e : ErrInput)
    (h : env.outcomes retries = .thrown e) (hs : e.status ≠ some 503)
    (ha : e.isAxiosError = true) :
    retryRun env cfg (fuel + 1) retries =
      (.errPhoenix (handleAxiosError e), []) := by
  simp [retryRun, h, hs, ha]

theorem retryRun_thrown_other_raw (env : Env) (cfg : RetryConfig)
    (fuel retries : Nat) (e : ErrInput)
    (h : env.outcomes retries = .thrown e) (hs : e.status ≠ some 503)
    (ha : e.isAxiosError = false) :
    retryRun env cfg (fuel + 1) retries = (.errRaw e, []) := by
  simp [retryRun, h, hs, ha]

/-! Evaluations of the retry loop on the concrete fixtures. -/

theorem timeoutMs_cfgC1 : timeoutMs cfgC1 = 60000 := by
  norm_num [timeoutMs, effTimeoutMinutes, cfgC1]

theorem timeoutMs_default_minutes (c : RetryConfig)
    (h : c.timeoutMinutes = none ∨ c.timeoutMinutes = some 0) :
    timeoutMs c = 600000 := by
  rcases h with h | h <;> norm_num [timeoutMs, effTimeoutMinutes, h]

theorem envC1_run :
    retryRun envC1 cfgC1 2 0 = (.ok respOk, [⟨true, 59999, 2000, 0⟩]) := by
  have h0 : envC1.outcomes 0 = .thrown errC1 := rfl
  have he : retriesExceeded 0 cfgC1.maxRetries = false := rfl
  have ht : ¬ envC1.elapsedAt 0 ≥ timeoutMs cfgC1 := by
    rw [timeoutMs_cfgC1]
    show ¬ (59999 : ℚ) ≥ 60000
    norm_num
  rw [retryRun_thrown503_sleep envC1 cfgC1 1 0 errC1 h0 rfl he ht]
  rw [retryRun_resolved_ok envC1 cfgC1 0 1 respOk rfl (by decide)]
  have hw : expWaitMs 0 (envC1.jitter 0) = 2000 := by
    show expWaitMs 0 0 = 2000
    norm_num [expWaitMs, min_def]
  have hel : envC1.elapsedAt 0 = 59999 := rfl
  rw [hw, hel]

theorem respWaitMs_zero_header (k : Nat) (j : ℚ) :
    respWaitMs (some ("0")) k j = 0 := by
  have h : jsParseIntOpt (some ("0")) = some 0 := by decide
  simp [respWaitMs, h]

theorem envZeroHdr_run :
    retryRun envZeroHdr cfgDefault 2 0 = (.ok respOk, [⟨false, 0, 0, 0⟩]) := by
  have h0 : envZeroHdr.outcomes 0 = .resolved resp503zero := rfl
  have he : retriesExceeded 0 cfgDefault.maxRetries = false := rfl
  have hw : respWaitMs resp503zero.retryAfter 0 (envZeroHdr.jitter 0) = 0 :=
    respWaitMs_zero_header 0 _
  have ht : ¬ envZeroHdr.elapsedAt 0 +
      respWaitMs resp503zero.retryAfter 0 (envZeroHdr.jitter 0) ≥
      timeoutMs cfgDefault := by
    rw [hw, timeoutMs_default_minutes cfgDefault (Or.inl rfl)]
    show ¬ (0 : ℚ) + 0 ≥ 600000
    norm_num
  rw [retryRun_resolved_sleep envZeroHdr cfgDefault 1 0 resp503zero h0 rfl he ht]
  rw [retryRun_resolved_ok envZeroHdr cfgDefault 0 1 respOk rfl (by decide)]
  rw [hw]
  rfl

theorem env503_run (c : RetryConfig) (hm : c.maxRetries = none)
    (htm : c.timeoutMinutes = none) :
    ∀ fuel r0, (retryRun env503 c fuel r0).1 = .fuelOut ∧
      (retryRun env503 c fuel r0).2.length = fuel := by
  intro fuel
  induction fuel with
  | zero => intro r0; exact ⟨rfl, rfl⟩
  | succ n ih =>
    intro r0
    have h0 : env503.outcomes r0 = .resolved resp503 := rfl
    have he : retriesExceeded r0 c.maxRetries = false := by
      rw [hm]; rfl
    have hwle : respWaitMs resp503.retryAfter r0 (env503.jitter r0) ≤ 30000 := by
      show respWaitMs none r0 0 ≤ 30000
      simp only [respWaitMs, jsParseIntOpt, expWaitMs]
      exact min_le_left _ _
    have ht : ¬ env503.elapsedAt r0 +
        respWaitMs resp503.retryAfter r0 (env503.jitter r0) ≥ timeoutMs c := by
      rw [timeoutMs_default_minutes c (Or.inl htm)]
      have hel : env503.elapsedAt r0 = 0 := rfl
      rw [hel]
      intro hcon
      have := le_trans hcon (by linarith [hwle] : (0 : ℚ) +
        respWaitMs resp503.retryAfter r0 (env503.jitter r0) ≤ 30000)
      norm_num at this
    rw [retryRun_resolved_sleep env503 c n r0 resp503 h0 rfl he ht]
    exact ⟨(ih (r0 + 1)).1, by simp [(ih (r0 + 1)).2]⟩

theorem envBudgetSpent_run :
    retryRun envBudgetSpent cfgTm0 1 0 = (.errTimeout 10, []) := by
  have h0 : envBudgetSpent.outcomes 0 = .thrown errC1 := rfl
  have he : retriesExceeded 0 cfgTm0.maxRetries = false := rfl
  have ht : envBudgetSpent.elapsedAt 0 ≥ timeoutMs cfgTm0 := by
    rw [timeoutMs_default_minutes cfgTm0 (Or.inr rfl)]
    show (600000 : ℚ) ≥ 600000
    norm_num
  rw [retryRun_thrown503_timeout envBudgetSpent cfgTm0 0 0 errC1 h0 rfl he ht]
  rfl

/-! The claims. -/

/-- Claim C9: constructing a client with base address `myhost` and port 8022
composes `http://myhost:8022/phoenix` (plain HTTP assumed when no scheme is
given); `https://myhost` keeps its explicit scheme; the defaults compose
`http://localhost:8022/phoenix`. -/
theorem claimC9 :
    composedBaseURL ⟨some ("myhost"), some 8022, none⟩ =
      "http://myhost:8022/phoenix" ∧
    composedBaseURL ⟨some ("https://myhost"), some 8022, none⟩ =
      "https://myhost:8022/phoenix" ∧
    composedBaseURL ⟨none, none, none⟩ = "http://localhost:8022/phoenix" := by
  refine ⟨by decide, by decide, by decide⟩

/-- Claim C10: a configuration value of 0 (or the empty string) is falsy and
silently replaced by its default: port 0 becomes 8022, per-request timeout 0
becomes 30000 ms, an empty base URL becomes `http://localhost`, a retry
policy with `timeoutMinutes: 0` uses the 10-minute budget, and the resulting
timeout failure reports 10 minutes. -/
theorem claimC10 :
    effPort ⟨none, some 0, none⟩ = 8022 ∧
    effTimeout ⟨none, none, some 0⟩ = 30000 ∧
    composedBaseURL ⟨some (""), some 0, some 0⟩ =
      "http://localhost:8022/phoenix" ∧
    effTimeoutMinutes cfgTm0 = 10 ∧
    timeoutMs cfgTm0 = 600000 ∧
    retryRun envBudgetSpent cfgTm0 1 0 = (.errTimeout 10, []) ∧
    (TimeoutError 10).message = "Request timeout exceeded: 10 minutes" := by
  refine ⟨rfl, rfl, by decide, rfl,
    timeoutMs_default_minutes cfgTm0 (Or.inr rfl), envBudgetSpent_run,
    by decide⟩

/-- Claim C8 (code evaluated at the failing input): a 409 with server
message `Project already exists with ID: proj-123` yields a
`ProjectExistsError` carrying the identifier `unknown`, not `proj-123` —
the regex `/ID\s+(\S+)/` requires whitespace immediately after `ID`, but the
message has a colon there, so the capture fails. -/
theorem claimC8_eval :
    extractProjectId ("Project already exists with ID: proj-123") =
      "unknown" ∧
    handleAxiosError errProj409 = ProjectExistsError ("unknown") ∧
    ProjectExistsError ("unknown") ≠ ProjectExistsError ("proj-123") := by
  refine ⟨by decide, by decide, by decide⟩

/-- Claim C2, counterexample: a 503 whose `retry-after` header is `"0"` does
not fall back to exponential backoff — `parseInt` returns 0, the computed
wait is 0 ms, and the loop commits to an immediate zero-delay retry. -/
theorem claimC2_counterexample :
    respWaitMs (some ("0")) 0 0 = 0 ∧
    expWaitMs 0 0 = 2000 ∧ (0 : ℚ) ≠ 2000 ∧
    retryRun envZeroHdr cfgDefault 2 0 = (.ok respOk, [⟨false, 0, 0, 0⟩]) := by
  refine ⟨respWaitMs_zero_header 0 0, by norm_num [expWaitMs, min_def],
    by norm_num, envZeroHdr_run⟩

/-- Claim C2 as amended: when the `retry-after` header parses (via
`parseInt`) to an integer n — including n = 0 — the wait before the next
attempt is n seconds, the server hint taking precedence over the
exponential formula; only when the header is absent or unparsable (a NaN
parse) does the wait fall back to the exponential backoff formula. -/
theorem claimC2_amended :
    ∀ (h : Option String) (k : Nat) (j : ℚ) (n : Int),
      (jsParseIntOpt h = some n → respWaitMs h k j = (n : ℚ) * 1000) ∧
      (jsParseIntOpt h = none → respWaitMs h k j = expWaitMs k j) := by
  intro h k j n
  constructor <;> intro hp <;> simp [respWaitMs, hp]

/-- Witness for C2: a `retry-after: 7` header produces a 7000 ms wait. -/
theorem claimC2_witness :
    respWaitMs (some ("7")) 3 (1 / 2) = ((7 : Int) : ℚ) * 1000 :=
  (claimC2_amended (some ("7")) 3 (1 / 2) 7).1 (by decide)

/-- Claim C4: an attempt failure not classified as 503 is never retried,
regardless of the retry policy: on its first occurrence the loop ends with
no sleep, throwing the classified error for an axios failure and rethrowing
anything else unchanged. -/
theorem claimC4 :
    ∀ (env : Env) (cfg : RetryConfig) (fuel : Nat) (e : ErrInput),
      env.outcomes 0 = .thrown e → e.status ≠ some 503 →
      (e.isAxiosError = true →
        retryRun env cfg (fuel + 1) 0 =
          (.errPhoenix (handleAxiosError e), [])) ∧
      (e.isAxiosError = false →
        retryRun env cfg (fuel + 1) 0 = (.errRaw e, [])) := by
  intro env cfg fuel e h hs
  exact ⟨fun ha => retryRun_thrown_other_axios env cfg fuel 0 e h hs ha,
    fun ha => retryRun_thrown_other_raw env cfg fuel 0 e h hs ha⟩

/-- Witness for C4: a thrown 400 ends the retrying call at once as a
`ValidationError`, with no sleep, even under an unlimited retry policy. -/
theorem claimC4_witness :
    retryRun env400 cfgDefault 1 0 =
      (.errPhoenix (handleAxiosError err400), []) :=
  (claimC4 env400 cfgDefault 0 err400 rfl (by decide)).1 rfl

/-- Claim C5: without a retry policy, `request` performs one attempt; a
resolved response of any status — 503 included — is returned to the caller
as the response value, unchanged and with no retry, while a raised
classified error arises from a thrown outcome, the no-response case mapping
to the `CONNECTION_ERROR` kind. -/
theorem claimC5 :
    ∀ (env : Env) (fuel : Nat) (r : HttpResponse) (e : ErrInput),
      (env.outcomes 0 = .resolved r → request env none fuel = (.ok r, [])) ∧
      (env.outcomes 0 = .thrown e → e.isAxiosError = true → e.status = none →
        request env none fuel =
          (.errPhoenix (mkPhoenixError (extractErrorMessage e)
            ("CONNECTION_ERROR") none e.errors), [])) := by
  intro env fuel r e
  constructor
  · intro h
    simp [request, singleRequest, h]
  · intro h ha hs
    simp [request, singleRequest, h, ha, handleAxiosError, hs]

/-- Witness for C5: a resolved 503 is returned as-is without a retry policy,
and a no-response network failure surfaces as a `CONNECTION_ERROR`. -/
theorem claimC5_witness :
    request env503 none 0 = (.ok resp503, []) ∧
    request envConn none 0 =
      (.errPhoenix (mkPhoenixError (extractErrorMessage errConn)
        ("CONNECTION_ERROR") none errConn.errors), []) :=
  ⟨(claimC5 env503 0 resp503 errConn).1 rfl,
   (claimC5 envConn 0 resp503 errConn).2 rfl rfl rfl⟩

/-- Claim C6: with no valid `retry-after` hint the wait before the k-th
retry equals `min(30000, 2000 * 2 ^ k + jitter)` with the jitter drawn from
[0, 1000), and the successive waits are non-decreasing, capped at 30 s. -/
theorem claimC6 :
    ∀ (j : Nat → ℚ), (∀ k, 0 ≤ j k ∧ j k < 1000) →
      ∀ (k : Nat) (h : Option String),
        (jsParseIntOpt h = none →
          respWaitMs h k (j k) = min 30000 (2000 * 2 ^ k + j k)) ∧
        expWaitMs k (j k) ≤ expWaitMs (k + 1) (j (k + 1)) ∧
        expWaitMs k (j k) ≤ 30000 := by
  intro j hj k h
  have hk : (1 : ℚ) ≤ 2 ^ k := by
    have hn : (1 : ℕ) ≤ 2 ^ k := Nat.one_le_two_pow
    calc (1 : ℚ) ≤ ((2 ^ k : ℕ) : ℚ) := by exact_mod_cast hn
      _ = 2 ^ k := by push_cast; ring
  refine ⟨fun hp => by simp [respWaitMs, hp, expWaitMs], ?_, min_le_left _ _⟩
  have hps : (2 : ℚ) ^ (k + 1) = 2 ^ k * 2 := pow_succ 2 k
  have h2000 : (2000 : ℚ) ≤ 2000 * 2 ^ k := by nlinarith [hk]
  have hab : 2000 * (2 : ℚ) ^ k + j k ≤ 2000 * 2 ^ (k + 1) + j (k + 1) := by
    have hjk := (hj k).2
    have hjk1 := (hj (k + 1)).1
    rw [hps]
    linarith
  exact min_le_min (le_refl _) hab

/-- Witness for C6: the zero-jitter instance at k = 0. -/
theorem claimC6_witness :
    (jsParseIntOpt none = none →
      respWaitMs none 0 ((fun _ => (0 : ℚ)) 0) =
        min 30000 (2000 * 2 ^ 0 + (fun _ => (0 : ℚ)) 0)) ∧
    expWaitMs 0 ((fun _ => (0 : ℚ)) 0) ≤ expWaitMs 1 ((fun _ => (0 : ℚ)) 1) ∧
    expWaitMs 0 ((fun _ => (0 : ℚ)) 0) ≤ 30000 :=
  claimC6 (fun _ => 0) (fun _ => by norm_num) 0 none

/-- Claim C7: `handleAxiosError` maps every HTTP failure onto one concrete
taxonomy kind — 400 to `ValidationError` carrying the server detail, 401 to
`AuthenticationError`, 403 to `AuthorizationError`, 404 to
`ResourceNotFoundError`, 409 to a conflict-kind error, 429 to
`RateLimitError` with the parsed `retry-after` hint, 503 to
`ServiceUnavailableError` with the parsed hint, no status at all to the
`CONNECTION_ERROR` kind, and any other status to an error tagged with the
raw status code. -/
theorem claimC7 :
    ∀ (e : ErrInput) (s : Nat),
      (e.status = some 400 →
        handleAxiosError e = ValidationError (extractErrorMessage e) e.errors) ∧
      (e.status = some 401 →
        handleAxiosError e = AuthenticationError (extractErrorMessage e)) ∧
      (e.status = some 403 →
        handleAxiosError e = AuthorizationError (extractErrorMessage e)) ∧
      (e.status = some 404 →
        handleAxiosError e =
          ResourceNotFoundError ("Resource") (extractErrorMessage e)) ∧
      (e.status = some 409 →
        (handleAxiosError e).statusCode = some 409 ∧
        ((handleAxiosError e).code = "PROJECT_EXISTS" ∨
         (handleAxiosError e).code = "CONFLICT")) ∧
      (e.status = some 429 →
        handleAxiosError e = RateLimitError (parseRetryHint e.retryAfter)) ∧
      (e.status = some 503 →
        handleAxiosError e =
          ServiceUnavailableError (parseRetryHint e.retryAfter)) ∧
      (e.status = none →
        handleAxiosError e =
          mkPhoenixError (extractErrorMessage e) ("CONNECTION_ERROR")
            none e.errors) ∧
      (e.status = some s → s ∉ ([400, 401, 403, 404, 409, 429, 503] : List Nat) →
        (handleAxiosError e).statusCode = some s ∧
        (handleAxiosError e).code =
          if s = 0 then ("HTTP_UNKNOWN") else ("HTTP_" ++ toString s)) := by
  intro e s
  refine ⟨?_, ?_, ?_, ?_, ?_, ?_, ?_, ?_, ?_⟩
  · intro h; simp [handleAxiosError, h]
  · intro h; simp [handleAxiosError, h]
  · intro h; simp [handleAxiosError, h]
  · intro h; simp [handleAxiosError, h]
  · intro h
    simp only [handleAxiosError, h]
    norm_num
    split_ifs with hin
    · exact ⟨rfl, Or.inl rfl⟩
    · exact ⟨rfl, Or.inr rfl⟩
  · intro h; simp [handleAxiosError, h]
  · intro h; simp [handleAxiosError, h]
  · intro h; simp [handleAxiosError, h]
  · intro h hnot
    simp only [List.mem_cons, List.not_mem_nil, or_false] at hnot
    push_neg at hnot
    obtain ⟨h400, h401, h403, h404, h409, h429, h503⟩ := hnot
    simp [handleAxiosError, h, h400, h401, h403, h404, h409, h429, h503,
      mkPhoenixError]

/-- Witness for C7: the 400 case at a concrete thrown error. -/
theorem claimC7_witness :
    handleAxiosError err400 =
      ValidationError (extractErrorMessage err400) err400.errors :=
  (claimC7 err400 0).1 rfl

/-- With a finite `maxRetries = N`, at most `N - r0` further sleeps can be
committed from a loop state whose counter already reads `r0`. -/
theorem retryRun_length_le (env : Env) (cfg : RetryConfig) (N : Nat)
    (hN : cfg.maxRetries = some N) :
    ∀ fuel r0, (retryRun env cfg fuel r0).2.length ≤ N - r0 := by
  intro fuel
  induction fuel with
  | zero => intro r0; simp [retryRun]
  | succ n ih =>
    intro r0
    cases hout : env.outcomes r0 with
    | resolved r =>
      by_cases hs : r.status = 503
      · cases he : retriesExceeded r0 cfg.maxRetries with
        | false =>
          have hlt : r0 < N := by
            simp [retriesExceeded, hN] at he
            omega
          by_cases ht : env.elapsedAt r0 +
              respWaitMs r.retryAfter r0 (env.jitter r0) ≥ timeoutMs cfg
          · rw [retryRun_resolved_timeout env cfg n r0 r hout hs he ht]
            simp
          · rw [retryRun_resolved_sleep env cfg n r0 r hout hs he ht]
            have := ih (r0 + 1)
            simp only [List.length_cons]
            omega
        | true =>
          rw [retryRun_resolved_exhausted env cfg n r0 r hout hs he]
          simp
      · rw [retryRun_resolved_ok env cfg n r0 r hout hs]
        simp
    | thrown e =>
      by_cases hs : e.status = some 503
      · cases he : retriesExceeded r0 cfg.maxRetries with
        | false =>
          have hlt : r0 < N := by
            simp [retriesExceeded, hN] at he
            omega
          by_cases ht : env.elapsedAt r0 ≥ timeoutMs cfg
          · rw [retryRun_thrown503_timeout env cfg n r0 e hout hs he ht]
            simp
          · rw [retryRun_thrown503_sleep env cfg n r0 e hout hs he ht]
            have := ih (r0 + 1)
            simp only [List.length_cons]
            omega
        | true =>
          rw [retryRun_thrown503_exhausted env cfg n r0 e hout hs he]
          simp
      · cases ha : e.isAxiosError with
        | false =>
          rw [retryRun_thrown_other_raw env cfg n r0 e hout hs ha]
          simp
        | true =>
          rw [retryRun_thrown_other_axios env cfg n r0 e hout hs ha]
          simp

/-- Claim C3: with `maxRetries = N` the controller performs at most N
retries (sleeps) beyond the initial attempt; once the counter has reached N,
a further 503 — as a response value or as a thrown error — is propagated as
final with no further sleep; with `maxRetries` omitted the loop retries
without bound (it consumes any amount of fuel without ever surfacing the
always-503 outcome). -/
theorem claimC3 :
    (∀ (env : Env) (cfg : RetryConfig) (fuel N : Nat),
      cfg.maxRetries = some N → (retryRun env cfg fuel 0).2.length ≤ N) ∧
    (∀ (env : Env) (cfg : RetryConfig) (fuel retries N : Nat)
        (r : HttpResponse),
      cfg.maxRetries = some N → N ≤ retries →
      env.outcomes retries = .resolved r → r.status = 503 →
      retryRun env cfg (fuel + 1) retries = (.ok r, [])) ∧
    (∀ (env : Env) (cfg : RetryConfig) (fuel retries N : Nat) (e : ErrInput),
      cfg.maxRetries = some N → N ≤ retries →
      env.outcomes retries = .thrown e → e.status = some 503 →
      retryRun env cfg (fuel + 1) retries = (.errRaw e, [])) ∧
    (∀ fuel r0, (retryRun env503 cfgDefault fuel r0).1 = .fuelOut ∧
      (retryRun env503 cfgDefault fuel r0).2.length = fuel) := by
  refine ⟨?_, ?_, ?_, env503_run cfgDefault rfl rfl⟩
  · intro env cfg fuel N hN
    have := retryRun_length_le env cfg N hN fuel 0
    omega
  · intro env cfg fuel retries N r hN hle hout hs
    exact retryRun_resolved_exhausted env cfg fuel retries r hout hs
      (by simp [retriesExceeded, hN, hle])
  · intro env cfg fuel retries N e hN hle hout hs
    exact retryRun_thrown503_exhausted env cfg fuel retries e hout hs
      (by simp [retriesExceeded, hN, hle])

/-- Witness for C3: with `maxRetries: 2` against a permanently-busy server
at most 2 sleeps occur; at a counter of 2 a further resolved 503 is
returned as-is and a further thrown 503 is rethrown raw, both with no
sleep. -/
theorem claimC3_witness :
    (retryRun env503 cfgN2 5 0).2.length ≤ 2 ∧
    retryRun env503 cfgN2 (0 + 1) 2 = (.ok resp503, []) ∧
    retryRun envBudgetSpent cfgN0 (0 + 1) 0 = (.errRaw errC1, []) :=
  ⟨claimC3.1 env503 cfgN2 5 2 rfl,
   claimC3.2.1 env503 cfgN2 0 2 2 resp503 rfl (by norm_num) rfl rfl,
   claimC3.2.2.1 envBudgetSpent cfgN0 0 0 0 errC1 rfl (le_refl 0) rfl rfl⟩

/-- Claim C1, counterexample: with a 1-minute budget, a 503 arriving as a
thrown error at 59999 ms elapsed commits to a further 2000 ms wait — elapsed
plus the computed wait meets the budget, yet no `TimeoutError` is raised and
the sleep happens, so the pre-commit `elapsed + wait < budget` check claimed
for both arrival modes does not hold on the thrown-error path. -/
theorem claimC1_counterexample :
    retryRun envC1 cfgC1 2 0 = (.ok respOk, [⟨true, 59999, 2000, 0⟩]) ∧
    (59999 : ℚ) + 2000 ≥ timeoutMs cfgC1 ∧
    (retryRun envC1 cfgC1 2 0).1 ≠ .errTimeout (effTimeoutMinutes cfgC1) := by
  refine ⟨envC1_run, ?_, ?_⟩
  · rw [timeoutMs_cfgC1]; norm_num
  · rw [envC1_run]
    simp

/-- Claim C1 as amended: before committing to a sleep on the response-value
path the controller checks that elapsed time plus the computed wait stays
below the budget, raising `TimeoutError` otherwise; on the thrown-error path
it checks only that elapsed time alone is below the budget, so there a
committed sleep may carry the session past the budget by up to one wait. -/
theorem claimC1_amended (env : Env) (cfg : RetryConfig) :
    ∀ (fuel r0 : Nat) (ev : SleepEvent), ev ∈ (retryRun env cfg fuel r0).2 →
      (ev.viaErrorBranch = false → ev.elapsed + ev.waitMs < timeoutMs cfg) ∧
      (ev.viaErrorBranch = true → ev.elapsed < timeoutMs cfg) := by
  intro fuel
  induction fuel with
  | zero =>
    intro r0 ev hmem
    simp [retryRun] at hmem
  | succ n ih =>
    intro r0 ev hmem
    cases hout : env.outcomes r0 with
    | resolved r =>
      by_cases hs : r.status = 503
      · cases he : retriesExceeded r0 cfg.maxRetries with
        | false =>
          by_cases ht : env.elapsedAt r0 +
              respWaitMs r.retryAfter r0 (env.jitter r0) ≥ timeoutMs cfg
          · rw [retryRun_resolved_timeout env cfg n r0 r hout hs he ht] at hmem
            simp at hmem
          · rw [retryRun_resolved_sleep env cfg n r0 r hout hs he ht] at hmem
            simp only [List.mem_cons] at hmem
            rcases hmem with hev | hmem
            · subst hev
              refine ⟨fun _ => not_le.mp ht, fun hb => by simp at hb⟩
            · exact ih (r0 + 1) ev hmem
        | true =>
          rw [retryRun_resolved_exhausted env cfg n r0 r hout hs he] at hmem
          simp at hmem
      · rw [retryRun_resolved_ok env cfg n r0 r hout hs] at hmem
        simp at hmem
    | thrown e =>
      by_cases hs : e.status = some 503
      · cases he : retriesExceeded r0 cfg.maxRetries with
        | false =>
          by_cases ht : env.elapsedAt r0 ≥ timeoutMs cfg
          · rw [retryRun_thrown503_timeout env cfg n r0 e hout hs he ht] at hmem
            simp at hmem
          · rw [retryRun_thrown503_sleep env cfg n r0 e hout hs he ht] at hmem
            simp only [List.mem_cons] at hmem
            rcases hmem with hev | hmem
            · subst hev
              refine ⟨fun hb => by simp at hb, fun _ => not_le.mp ht⟩
            · exact ih (r0 + 1) ev hmem
        | true =>
          rw [retryRun_thrown503_exhausted env cfg n r0 e hout hs he] at hmem
          simp at hmem
      · cases ha : e.isAxiosError with
        | false =>
          rw [retryRun_thrown_other_raw env cfg n r0 e hout hs ha] at hmem
          simp at hmem
        | true =>
          rw [retryRun_thrown_other_axios env cfg n r0 e hout hs ha] at hmem
          simp at hmem

/-- Witness for C1: the amended bounds at the concrete sleep committed in
the counterexample run. -/
theorem claimC1_witness :
    ((SleepEvent.mk true 59999 2000 0).viaErrorBranch = false →
      (SleepEvent.mk true 59999 2000 0).elapsed +
        (SleepEvent.mk true 59999 2000 0).waitMs < timeoutMs cfgC1) ∧
    ((SleepEvent.mk true 59999 2000 0).viaErrorBranch = true →
      (SleepEvent.mk true 59999 2000 0).elapsed < timeoutMs cfgC1) :=
  claimC1_amended envC1 cfgC1 2 0 ⟨true, 59999, 2000, 0⟩
    (by rw [envC1_run]; simp)

end Phoenix
